import Mathlib

/-!
Shallow embedding of the battery-cell dashboard's telemetry generator and
derived-metrics/alert evaluator (src/mian.py), together with theorems
checking the specification's claims against it.

Randomness is made explicit: each cell consumes one `CellDraws` record from
a tape, with `random.uniform a b` modelled as `a + (b - a) * Int.fract u`
(a value in `[a, b)`), `random.randint lo hi` as `lo + n % (hi - lo + 1)`,
`random.choice l` as indexing `l` at `n % l.length`, and Python's
`round(x, k)` (round half to even) as `rne` scaled by `10 ^ k`.
`datetime.now()` is modelled by the `now` field of each cell's draw record,
since the source calls it once per cell inside the generation loop.
-/

namespace CellCharging

inductive Status where
  | Charging
  | Complete
  | Idle
  | Error
deriving DecidableEq, Inhabited

inductive Process where
  | CC
  | CV
  | Trickle
  | Fast
  | None
deriving DecidableEq, Inhabited

inductive Health where
  | Excellent
  | Good
  | Warning
  | Critical
deriving DecidableEq, Inhabited

/-- Model of Python `random.uniform a b`: the library computes
`a + (b - a) * random()` with `random() ∈ [0, 1)`; here the unit draw is
`Int.fract u` of an arbitrary rational `u`. -/
def pyUniform (a b u : ℚ) : ℚ := a + (b - a) * Int.fract u

/-- Model of Python `random.randint lo hi` (both endpoints inclusive). -/
def pyRandint (lo hi n : ℕ) : ℕ := lo + n % (hi - lo + 1)

/-- Model of Python `random.choice l`: an element of `l` picked by the
draw `n` (index `n % l.length`). -/
def pyChoice {α : Type} [Inhabited α] (l : List α) (n : ℕ) : α :=
  l.getD (n % l.length) default

/-- Round to the nearest integer, ties to even (Python's `round`). -/
def rne (x : ℚ) : ℤ :=
  if x - ⌊x⌋ < 1/2 then ⌊x⌋
  else if 1/2 < x - ⌊x⌋ then ⌊x⌋ + 1
  else if ⌊x⌋ % 2 = 0 then ⌊x⌋ else ⌊x⌋ + 1

/-- Python `round(x, n)`: round to `n` decimal places, ties to even. -/
def roundTo (n : ℕ) (x : ℚ) : ℚ := (rne (x * 10 ^ n) : ℚ) / 10 ^ n

/-- The random draws consumed while generating one cell, plus the value the
cell's own `datetime.now()` call returns (`now`). -/
structure CellDraws where
  uVolt : ℚ
  uCurr : ℚ
  capRnd : ℕ
  statusRnd : ℕ
  processRnd : ℕ
  tempRnd : ℕ
  healthRnd : ℕ
  now : ℕ

/-- One row of the generated frame (one cell's reading). -/
structure CellReading where
  cellId : String
  voltageV : ℚ
  currentA : ℚ
  temperatureC : ℕ
  capacityPercent : ℕ
  status : Status
  process : Process
  health : Health
  powerW : ℚ
  lastUpdate : ℕ
deriving DecidableEq

def health_states : List Health := [.Excellent, .Good, .Warning, .Critical]

/-- Python `f'Cell_{i:02d}'`. -/
def cellIdStr (i : ℕ) : String :=
  "Cell_" ++ (if i < 10 then "0" ++ toString i else toString i)

/-- Body of the generation loop of `generate_cell_data` for cell `i`
(`1 ≤ i ≤ 8`), consuming the draw record `d`. -/
def makeCell (i : ℕ) (d : CellDraws) : CellReading :=
  let voltage : ℚ :=
    if i ≤ 4 then roundTo 2 (pyUniform (39/10) (42/10) d.uVolt)
    else roundTo 2 (pyUniform (37/10) (421/100) d.uVolt)
  let current : ℚ :=
    if i ≤ 4 then roundTo 1 (pyUniform (5/10) (35/10) d.uCurr)
    else roundTo 1 (pyUniform 0 1 d.uCurr)
  let capacity : ℕ :=
    if i ≤ 4 then pyRandint 60 99 d.capRnd else pyRandint 85 100 d.capRnd
  let status : Status :=
    if i ≤ 4 then pyChoice [.Charging, .Charging, .Complete] d.statusRnd
    else pyChoice [.Complete, .Idle] d.statusRnd
  let process : Process :=
    if i ≤ 4 then pyChoice [.CC, .CV, .Fast] d.processRnd
    else pyChoice [.Trickle, .None] d.processRnd
  let temperature : ℕ := pyRandint 22 45 d.tempRnd
  let health : Health :=
    if temperature < 40 then pyChoice health_states d.healthRnd else .Warning
  { cellId := cellIdStr i
    voltageV := voltage
    currentA := current
    temperatureC := temperature
    capacityPercent := capacity
    status := status
    process := process
    health := health
    powerW := roundTo 1 (voltage * current)
    lastUpdate := d.now }

/-- `generate_cell_data`: the loop `for i in range(1, 9)` building the
8-row frame, fed by the random tape. -/
def generate_cell_data (tape : ℕ → CellDraws) : List CellReading :=
  (List.range' 1 8).map fun i => makeCell i (tape i)

/-! ### Derived metrics and alerts (from `main`) -/

/-- `len(df[df['Status'] == 'Charging'])`. -/
def activeCells (df : List CellReading) : ℕ :=
  (df.filter fun r => decide (r.status = Status.Charging)).length

/-- `df['Power_W'].sum()`. -/
def totalPower (df : List CellReading) : ℚ :=
  (df.map (·.powerW)).sum

/-- pandas `.mean()`: arithmetic mean, `NaN` (here `none`) on an empty
column. -/
def meanQ (l : List ℚ) : Option ℚ :=
  if l = [] then none else some (l.sum / l.length)

/-- `df['Temperature_C'].mean()`. -/
def avgTemp (df : List CellReading) : Option ℚ :=
  meanQ (df.map fun r => (r.temperatureC : ℚ))

/-- `df['Capacity_%'].mean()`. -/
def avgCapacity (df : List CellReading) : Option ℚ :=
  meanQ (df.map fun r => (r.capacityPercent : ℚ))

/-- `df[df['Process'].isin(selected_processes)]`. -/
def filterByProcess (df : List CellReading) (sel : List Process) : List CellReading :=
  df.filter fun r => decide (r.process ∈ sel)

/-- `filtered_df[filtered_df['Temperature_C'] > 40]`. -/
def highTempCells (df : List CellReading) : List CellReading :=
  df.filter fun r => decide (40 < r.temperatureC)

/-- `filtered_df[filtered_df['Capacity_%'] < 20]`. -/
def lowCapacityCells (df : List CellReading) : List CellReading :=
  df.filter fun r => decide (r.capacityPercent < 20)

/-- `filtered_df[filtered_df['Status'] == 'Error']`. -/
def errorCells (df : List CellReading) : List CellReading :=
  df.filter fun r => decide (r.status = Status.Error)

/-- One rendered alert message: its kind, the cell count it names, and the
ids of the affected cells it lists. -/
inductive AlertMsg where
  | highTemp (count : ℕ) (cells : List String)
  | lowCap (count : ℕ) (cells : List String)
  | errorState (count : ℕ) (cells : List String)
deriving DecidableEq

def isHighTempAlert : AlertMsg → Bool
  | .highTemp _ _ => true
  | _ => false

def isLowCapAlert : AlertMsg → Bool
  | .lowCap _ _ => true
  | _ => false

def isErrorAlert : AlertMsg → Bool
  | .errorState _ _ => true
  | _ => false

/-- The three `if len(...) > 0` alert blocks of `main`, in source order. -/
def systemAlerts (df : List CellReading) : List AlertMsg :=
  (if 0 < (highTempCells df).length then
    [AlertMsg.highTemp (highTempCells df).length ((highTempCells df).map (·.cellId))]
  else []) ++
  (if 0 < (lowCapacityCells df).length then
    [AlertMsg.lowCap (lowCapacityCells df).length ((lowCapacityCells df).map (·.cellId))]
  else []) ++
  (if 0 < (errorCells df).length then
    [AlertMsg.errorState (errorCells df).length ((errorCells df).map (·.cellId))]
  else [])

/-- `len(high_temp_cells) == 0 and len(low_capacity_cells) == 0 and
len(error_cells) == 0`: the "All systems operating normally!" banner. -/
def allNormalBanner (df : List CellReading) : Bool :=
  decide ((highTempCells df).length = 0) &&
  decide ((lowCapacityCells df).length = 0) &&
  decide ((errorCells df).length = 0)

/-- What one refresh pass of `main` computes from the frame `df` and the
selected process filter: the four sidebar/header metrics are computed from
the full `df` (before the filter is applied), while the card grid, charts,
table and alerts use `filtered_df`. -/
structure Dashboard where
  activeCount : ℕ
  totalPowerW : ℚ
  avgTemperatureC : Option ℚ
  avgCapacityPercent : Option ℚ
  filtered : List CellReading
  alerts : List AlertMsg
  banner : Bool
deriving DecidableEq

def runDashboard (df : List CellReading) (sel : List Process) : Dashboard :=
  let filtered_df := filterByProcess df sel
  { activeCount := activeCells df
    totalPowerW := totalPower df
    avgTemperatureC := avgTemp df
    avgCapacityPercent := avgCapacity df
    filtered := filtered_df
    alerts := systemAlerts filtered_df
    banner := allNormalBanner filtered_df }

/-- Rendering of `f'{x:.1f}'` for a pandas mean: `NaN` prints as `nan`,
a number prints with one decimal digit (nonnegative case). -/
def fmtFloat1 : Option ℚ → String
  | Option.none => "nan"
  | Option.some q =>
    let s := rne (q * 10)
    toString (s / 10) ++ "." ++ toString ((s % 10).natAbs)

/-- The sidebar string `f'{avg_temp:.1f}°C'`. -/
def avgTempDisplay (df : List CellReading) : String :=
  fmtFloat1 (avgTemp df) ++ "°C"

/-! ### Helper lemmas about the samplers -/

lemma rne_bound (x : ℚ) : ⌊x⌋ ≤ rne x ∧ rne x ≤ ⌊x⌋ + 1 := by
  unfold rne
  split_ifs <;> omega

lemma roundTo_bounds {n : ℕ} {a b : ℤ} {x : ℚ}
    (h1 : (a : ℚ) ≤ x * 10 ^ n) (h2 : x * 10 ^ n < (b : ℚ)) :
    (a : ℚ) / 10 ^ n ≤ roundTo n x ∧ roundTo n x ≤ (b : ℚ) / 10 ^ n := by
  have h10 : (0 : ℚ) < 10 ^ n := by positivity
  have hf : a ≤ ⌊x * 10 ^ n⌋ := Int.le_floor.mpr h1
  have hc : ⌊x * 10 ^ n⌋ < b := Int.floor_lt.mpr h2
  obtain ⟨hl, hr⟩ := rne_bound (x * 10 ^ n)
  unfold roundTo
  constructor
  · apply div_le_div_of_nonneg_right ?_ h10.le
    exact_mod_cast le_trans hf hl
  · apply div_le_div_of_nonneg_right ?_ h10.le
    exact_mod_cast le_trans hr (by omega)

lemma pyUniform_mem {a b : ℚ} (u : ℚ) (hab : a < b) :
    a ≤ pyUniform a b u ∧ pyUniform a b u < b := by
  unfold pyUniform
  have h0 : 0 ≤ Int.fract u := Int.fract_nonneg u
  have h1 : Int.fract u < 1 := Int.fract_lt_one u
  constructor
  · nlinarith
  · nlinarith

lemma pyRandint_mem {lo hi : ℕ} (n : ℕ) (h : lo ≤ hi) :
    lo ≤ pyRandint lo hi n ∧ pyRandint lo hi n ≤ hi := by
  unfold pyRandint
  have := Nat.mod_lt n (show 0 < hi - lo + 1 by omega)
  omega

lemma pyChoice_mem {α : Type} [Inhabited α] (l : List α) (hl : l ≠ []) (n : ℕ) :
    pyChoice l n ∈ l := by
  unfold pyChoice
  have hlen : 0 < l.length := List.length_pos.mpr hl
  have hlt : n % l.length < l.length := Nat.mod_lt _ hlen
  rw [List.getD_eq_getElem l default hlt]
  exact List.getElem_mem hlt

/-! ### Field lemmas for `makeCell` -/

lemma makeCell_voltageV (i : ℕ) (d : CellDraws) :
    (makeCell i d).voltageV =
      if i ≤ 4 then roundTo 2 (pyUniform (39/10) (42/10) d.uVolt)
      else roundTo 2 (pyUniform (37/10) (421/100) d.uVolt) := rfl

lemma makeCell_currentA (i : ℕ) (d : CellDraws) :
    (makeCell i d).currentA =
      if i ≤ 4 then roundTo 1 (pyUniform (5/10) (35/10) d.uCurr)
      else roundTo 1 (pyUniform 0 1 d.uCurr) := rfl

lemma makeCell_capacityPercent (i : ℕ) (d : CellDraws) :
    (makeCell i d).capacityPercent =
      if i ≤ 4 then pyRandint 60 99 d.capRnd else pyRandint 85 100 d.capRnd := rfl

lemma makeCell_status (i : ℕ) (d : CellDraws) :
    (makeCell i d).status =
      if i ≤ 4 then pyChoice [.Charging, .Charging, .Complete] d.statusRnd
      else pyChoice [.Complete, .Idle] d.statusRnd := rfl

lemma makeCell_process (i : ℕ) (d : CellDraws) :
    (makeCell i d).process =
      if i ≤ 4 then pyChoice [.CC, .CV, .Fast] d.processRnd
      else pyChoice [.Trickle, .None] d.processRnd := rfl

lemma makeCell_temperatureC (i : ℕ) (d : CellDraws) :
    (makeCell i d).temperatureC = pyRandint 22 45 d.tempRnd := rfl

lemma makeCell_health (i : ℕ) (d : CellDraws) :
    (makeCell i d).health =
      if pyRandint 22 45 d.tempRnd < 40 then pyChoice health_states d.healthRnd
      else .Warning := rfl

lemma makeCell_powerW (i : ℕ) (d : CellDraws) :
    (makeCell i d).powerW =
      roundTo 1 ((makeCell i d).voltageV * (makeCell i d).currentA) := rfl

lemma makeCell_lastUpdate (i : ℕ) (d : CellDraws) :
    (makeCell i d).lastUpdate = d.now := rfl

lemma generate_eq (tape : ℕ → CellDraws) :
    generate_cell_data tape =
      [makeCell 1 (tape 1), makeCell 2 (tape 2), makeCell 3 (tape 3),
       makeCell 4 (tape 4), makeCell 5 (tape 5), makeCell 6 (tape 6),
       makeCell 7 (tape 7), makeCell 8 (tape 8)] := rfl

lemma mem_generate {tape : ℕ → CellDraws} {r : CellReading}
    (h : r ∈ generate_cell_data tape) :
    ∃ i, 1 ≤ i ∧ i ≤ 8 ∧ r = makeCell i (tape i) := by
  rw [generate_eq] at h
  simp only [List.mem_cons, List.not_mem_nil, or_false] at h
  rcases h with h | h | h | h | h | h | h | h
  · exact ⟨1, by omega, by omega, h⟩
  · exact ⟨2, by omega, by omega, h⟩
  · exact ⟨3, by omega, by omega, h⟩
  · exact ⟨4, by omega, by omega, h⟩
  · exact ⟨5, by omega, by omega, h⟩
  · exact ⟨6, by omega, by omega, h⟩
  · exact ⟨7, by omega, by omega, h⟩
  · exact ⟨8, by omega, by omega, h⟩

/-- A constant all-zero random tape, used to instantiate universally
quantified theorems at a concrete input. -/
def tape0 : ℕ → CellDraws := fun _ =>
  { uVolt := 0, uCurr := 0, capRnd := 0, statusRnd := 0, processRnd := 0,
    tempRnd := 0, healthRnd := 0, now := 0 }

/-! ### Claims -/

/-- Claim C1: every snapshot produced by `generate_cell_data` contains
exactly 8 readings whose cellId fields are exactly Cell_01 through Cell_08,
in that order, with no duplicates. -/
theorem C1_snapshot_ids (tape : ℕ → CellDraws) :
    (generate_cell_data tape).length = 8 ∧
    (generate_cell_data tape).map (·.cellId) =
      ["Cell_01", "Cell_02", "Cell_03", "Cell_04",
       "Cell_05", "Cell_06", "Cell_07", "Cell_08"] ∧
    ((generate_cell_data tape).map (·.cellId)).Nodup := by
  have hmap : (generate_cell_data tape).map (·.cellId) =
      ["Cell_01", "Cell_02", "Cell_03", "Cell_04",
       "Cell_05", "Cell_06", "Cell_07", "Cell_08"] := by
    rw [generate_eq]
    rfl
  refine ⟨rfl, hmap, ?_⟩
  rw [hmap]
  decide

/-- Claim C2: in every generated snapshot, each reading's powerW equals
`round(voltageV * currentA, 1)` computed from that same reading's stored
voltage and current. -/
theorem C2_power_recomputed (tape : ℕ → CellDraws) (r : CellReading)
    (h : r ∈ generate_cell_data tape) :
    r.powerW = roundTo 1 (r.voltageV * r.currentA) := by
  obtain ⟨i, _, _, rfl⟩ := mem_generate h
  exact makeCell_powerW i (tape i)

theorem C2_power_recomputed_witness :
    makeCell 1 (tape0 1) ∈ generate_cell_data tape0 ∧
    (makeCell 1 (tape0 1)).powerW =
      roundTo 1 ((makeCell 1 (tape0 1)).voltageV * (makeCell 1 (tape0 1)).currentA) := by
  have hm : makeCell 1 (tape0 1) ∈ generate_cell_data tape0 := List.Mem.head _
  exact ⟨hm, C2_power_recomputed tape0 _ hm⟩

lemma voltage_active_bounds (u : ℚ) :
    39/10 ≤ roundTo 2 (pyUniform (39/10) (42/10) u) ∧
    roundTo 2 (pyUniform (39/10) (42/10) u) ≤ 42/10 := by
  obtain ⟨h1, h2⟩ := pyUniform_mem u (show (39/10 : ℚ) < 42/10 by norm_num)
  have hb := @roundTo_bounds 2 390 420 (pyUniform (39/10) (42/10) u)
    (by push_cast; linarith) (by push_cast; linarith)
  have hl := hb.1
  have hr := hb.2
  norm_num at hl hr
  constructor <;> linarith

lemma voltage_maint_bounds (u : ℚ) :
    37/10 ≤ roundTo 2 (pyUniform (37/10) (421/100) u) ∧
    roundTo 2 (pyUniform (37/10) (421/100) u) ≤ 421/100 := by
  obtain ⟨h1, h2⟩ := pyUniform_mem u (show (37/10 : ℚ) < 421/100 by norm_num)
  have hb := @roundTo_bounds 2 370 421 (pyUniform (37/10) (421/100) u)
    (by push_cast; linarith) (by push_cast; linarith)
  have hl := hb.1
  have hr := hb.2
  norm_num at hl hr
  constructor <;> linarith

lemma current_active_bounds (u : ℚ) :
    5/10 ≤ roundTo 1 (pyUniform (5/10) (35/10) u) ∧
    roundTo 1 (pyUniform (5/10) (35/10) u) ≤ 35/10 := by
  obtain ⟨h1, h2⟩ := pyUniform_mem u (show (5/10 : ℚ) < 35/10 by norm_num)
  have hb := @roundTo_bounds 1 5 35 (pyUniform (5/10) (35/10) u)
    (by push_cast; linarith) (by push_cast; linarith)
  have hl := hb.1
  have hr := hb.2
  norm_num at hl hr
  constructor <;> linarith

lemma current_maint_bounds (u : ℚ) :
    0 ≤ roundTo 1 (pyUniform 0 1 u) ∧ roundTo 1 (pyUniform 0 1 u) ≤ 1 := by
  obtain ⟨h1, h2⟩ := pyUniform_mem u (show (0 : ℚ) < 1 by norm_num)
  have hb := @roundTo_bounds 1 0 10 (pyUniform 0 1 u)
    (by push_cast; linarith) (by push_cast; linarith)
  have hl := hb.1
  have hr := hb.2
  norm_num at hl hr
  constructor <;> linarith

lemma makeCell_active_bundle (i : ℕ) (d : CellDraws) (h : i ≤ 4) :
    39/10 ≤ (makeCell i d).voltageV ∧ (makeCell i d).voltageV ≤ 42/10 ∧
    5/10 ≤ (makeCell i d).currentA ∧ (makeCell i d).currentA ≤ 35/10 ∧
    60 ≤ (makeCell i d).capacityPercent ∧ (makeCell i d).capacityPercent ≤ 99 ∧
    (makeCell i d).status ∈ [Status.Charging, Status.Charging, Status.Complete] ∧
    (makeCell i d).process ∈ [Process.CC, Process.CV, Process.Fast] := by
  rw [makeCell_voltageV, makeCell_currentA, makeCell_capacityPercent,
    makeCell_status, makeCell_process]
  rw [if_pos h, if_pos h, if_pos h, if_pos h, if_pos h]
  obtain ⟨hv1, hv2⟩ := voltage_active_bounds d.uVolt
  obtain ⟨hc1, hc2⟩ := current_active_bounds d.uCurr
  obtain ⟨hp1, hp2⟩ := pyRandint_mem d.capRnd (show 60 ≤ 99 by omega)
  exact ⟨hv1, hv2, hc1, hc2, hp1, hp2,
    pyChoice_mem _ (by decide) _, pyChoice_mem _ (by decide) _⟩

lemma makeCell_maint_bundle (i : ℕ) (d : CellDraws) (h : ¬ i ≤ 4) :
    37/10 ≤ (makeCell i d).voltageV ∧ (makeCell i d).voltageV ≤ 421/100 ∧
    0 ≤ (makeCell i d).currentA ∧ (makeCell i d).currentA ≤ 1 ∧
    85 ≤ (makeCell i d).capacityPercent ∧ (makeCell i d).capacityPercent ≤ 100 ∧
    (makeCell i d).status ∈ [Status.Complete, Status.Idle] ∧
    (makeCell i d).process ∈ [Process.Trickle, Process.None] := by
  rw [makeCell_voltageV, makeCell_currentA, makeCell_capacityPercent,
    makeCell_status, makeCell_process]
  rw [if_neg h, if_neg h, if_neg h, if_neg h, if_neg h]
  obtain ⟨hv1, hv2⟩ := voltage_maint_bounds d.uVolt
  obtain ⟨hc1, hc2⟩ := current_maint_bounds d.uCurr
  obtain ⟨hp1, hp2⟩ := pyRandint_mem d.capRnd (show 85 ≤ 100 by omega)
  exact ⟨hv1, hv2, hc1, hc2, hp1, hp2,
    pyChoice_mem _ (by decide) _, pyChoice_mem _ (by decide) _⟩

/-- Claim C3: for every reading at position `k` (cell index `k + 1`) of a
generated snapshot: if the cell index is at most 4 the active-profile
ranges hold (voltage in [3.9, 4.2], current in [0.5, 3.5], capacity in
[60, 99], status drawn from the three-element list
[Charging, Charging, Complete], process from [CC, CV, Fast]); otherwise the
maintenance-profile ranges hold (voltage in [3.7, 4.21], current in [0, 1],
capacity in [85, 100], status from [Complete, Idle], process from
[Trickle, None]). -/
theorem C3_profile_ranges (tape : ℕ → CellDraws) (k : ℕ) (hk : k < 8) :
    ∃ r, (generate_cell_data tape)[k]? = some r ∧
      (k + 1 ≤ 4 →
        39/10 ≤ r.voltageV ∧ r.voltageV ≤ 42/10 ∧
        5/10 ≤ r.currentA ∧ r.currentA ≤ 35/10 ∧
        60 ≤ r.capacityPercent ∧ r.capacityPercent ≤ 99 ∧
        r.status ∈ [Status.Charging, Status.Charging, Status.Complete] ∧
        r.process ∈ [Process.CC, Process.CV, Process.Fast]) ∧
      (4 < k + 1 →
        37/10 ≤ r.voltageV ∧ r.voltageV ≤ 421/100 ∧
        0 ≤ r.currentA ∧ r.currentA ≤ 1 ∧
        85 ≤ r.capacityPercent ∧ r.capacityPercent ≤ 100 ∧
        r.status ∈ [Status.Complete, Status.Idle] ∧
        r.process ∈ [Process.Trickle, Process.None]) := by
  interval_cases k
  · exact ⟨makeCell 1 (tape 1), rfl,
      fun _ => makeCell_active_bundle 1 (tape 1) (by omega),
      fun h => absurd h (by omega)⟩
  · exact ⟨makeCell 2 (tape 2), rfl,
      fun _ => makeCell_active_bundle 2 (tape 2) (by omega),
      fun h => absurd h (by omega)⟩
  · exact ⟨makeCell 3 (tape 3), rfl,
      fun _ => makeCell_active_bundle 3 (tape 3) (by omega),
      fun h => absurd h (by omega)⟩
  · exact ⟨makeCell 4 (tape 4), rfl,
      fun _ => makeCell_active_bundle 4 (tape 4) (by omega),
      fun h => absurd h (by omega)⟩
  · exact ⟨makeCell 5 (tape 5), rfl, fun h => absurd h (by omega),
      fun _ => makeCell_maint_bundle 5 (tape 5) (by omega)⟩
  · exact ⟨makeCell 6 (tape 6), rfl, fun h => absurd h (by omega),
      fun _ => makeCell_maint_bundle 6 (tape 6) (by omega)⟩
  · exact ⟨makeCell 7 (tape 7), rfl, fun h => absurd h (by omega),
      fun _ => makeCell_maint_bundle 7 (tape 7) (by omega)⟩
  · exact ⟨makeCell 8 (tape 8), rfl, fun h => absurd h (by omega),
      fun _ => makeCell_maint_bundle 8 (tape 8) (by omega)⟩

theorem C3_profile_ranges_witness :
    (0 : ℕ) < 8 ∧
    ∃ r, (generate_cell_data tape0)[(0 : ℕ)]? = some r ∧
      ((0 : ℕ) + 1 ≤ 4 →
        39/10 ≤ r.voltageV ∧ r.voltageV ≤ 42/10 ∧
        5/10 ≤ r.currentA ∧ r.currentA ≤ 35/10 ∧
        60 ≤ r.capacityPercent ∧ r.capacityPercent ≤ 99 ∧
        r.status ∈ [Status.Charging, Status.Charging, Status.Complete] ∧
        r.process ∈ [Process.CC, Process.CV, Process.Fast]) ∧
      (4 < (0 : ℕ) + 1 →
        37/10 ≤ r.voltageV ∧ r.voltageV ≤ 421/100 ∧
        0 ≤ r.currentA ∧ r.currentA ≤ 1 ∧
        85 ≤ r.capacityPercent ∧ r.capacityPercent ≤ 100 ∧
        r.status ∈ [Status.Complete, Status.Idle] ∧
        r.process ∈ [Process.Trickle, Process.None]) :=
  ⟨by decide, C3_profile_ranges tape0 0 (by decide)⟩

/-- Claim C4: in every generated snapshot, a reading with temperature at
least 40 has health forced to Warning regardless of the random draw, and a
reading with temperature below 40 has health drawn from the four-element
list [Excellent, Good, Warning, Critical]. -/
theorem C4_temp_forces_warning (tape : ℕ → CellDraws) (r : CellReading)
    (h : r ∈ generate_cell_data tape) :
    (40 ≤ r.temperatureC → r.health = Health.Warning) ∧
    (r.temperatureC < 40 → r.health ∈ health_states) := by
  obtain ⟨i, _, _, rfl⟩ := mem_generate h
  rw [makeCell_health, makeCell_temperatureC]
  constructor
  · intro ht
    rw [if_neg (by omega)]
  · intro ht
    rw [if_pos ht]
    exact pyChoice_mem _ (by decide) _

/-- A constant tape whose temperature draw makes `pyRandint 22 45` return
exactly 40 (`22 + 18 % 24 = 40`). -/
def tapeHot : ℕ → CellDraws := fun _ =>
  { uVolt := 0, uCurr := 0, capRnd := 0, statusRnd := 0, processRnd := 0,
    tempRnd := 18, healthRnd := 0, now := 0 }

theorem C4_temp_forces_warning_witness :
    makeCell 1 (tapeHot 1) ∈ generate_cell_data tapeHot ∧
    ((40 ≤ (makeCell 1 (tapeHot 1)).temperatureC →
      (makeCell 1 (tapeHot 1)).health = Health.Warning) ∧
     ((makeCell 1 (tapeHot 1)).temperatureC < 40 →
      (makeCell 1 (tapeHot 1)).health ∈ health_states)) := by
  have hm : makeCell 1 (tapeHot 1) ∈ generate_cell_data tapeHot := List.Mem.head _
  exact ⟨hm, C4_temp_forces_warning tapeHot _ hm⟩

/-- Claim C5: the "all normal" banner shows iff the three alert subsets
(over-temperature, low-capacity, error-state) are all empty; otherwise each
non-empty subset produces exactly one alert message naming its count and
listing the affected cells. -/
theorem C5_banner_iff_no_alerts (df : List CellReading) :
    (allNormalBanner df = true ↔
      highTempCells df = [] ∧ lowCapacityCells df = [] ∧ errorCells df = []) ∧
    ((systemAlerts df).filter isHighTempAlert =
      if highTempCells df = [] then []
      else [AlertMsg.highTemp (highTempCells df).length
        ((highTempCells df).map (·.cellId))]) ∧
    ((systemAlerts df).filter isLowCapAlert =
      if lowCapacityCells df = [] then []
      else [AlertMsg.lowCap (lowCapacityCells df).length
        ((lowCapacityCells df).map (·.cellId))]) ∧
    ((systemAlerts df).filter isErrorAlert =
      if errorCells df = [] then []
      else [AlertMsg.errorState (errorCells df).length
        ((errorCells df).map (·.cellId))]) := by
  refine ⟨?_, ?_, ?_, ?_⟩
  · unfold allNormalBanner
    simp [List.length_eq_zero]
    tauto
  all_goals
    unfold systemAlerts
    by_cases h1 : highTempCells df = [] <;>
      by_cases h2 : lowCapacityCells df = [] <;>
        by_cases h3 : errorCells df = [] <;>
          simp [h1, h2, h3, List.length_pos, List.filter_append,
            isHighTempAlert, isLowCapAlert, isErrorAlert]

lemma status_ne_error_of_mem {tape : ℕ → CellDraws} {r : CellReading}
    (h : r ∈ generate_cell_data tape) : r.status ≠ Status.Error := by
  obtain ⟨i, _, _, rfl⟩ := mem_generate h
  rw [makeCell_status]
  split_ifs
  · intro he
    have hm := pyChoice_mem [Status.Charging, Status.Charging, Status.Complete]
      (by decide) (tape i).statusRnd
    rw [he] at hm
    exact absurd hm (by decide)
  · intro he
    have hm := pyChoice_mem [Status.Complete, Status.Idle]
      (by decide) (tape i).statusRnd
    rw [he] at hm
    exact absurd hm (by decide)

/-- Claim C9: the generator never produces a reading with status Error, so
the error-state alert subset of every generated snapshot (and of any
process-filtered view of it) is empty, and the error alert never fires. -/
theorem C9_error_alert_never_fires (tape : ℕ → CellDraws) (sel : List Process) :
    errorCells (generate_cell_data tape) = [] ∧
    errorCells (filterByProcess (generate_cell_data tape) sel) = [] ∧
    (systemAlerts (filterByProcess (generate_cell_data tape) sel)).filter
      isErrorAlert = [] := by
  have h1 : errorCells (generate_cell_data tape) = [] := by
    apply List.filter_eq_nil_iff.mpr
    intro r hr
    simpa using status_ne_error_of_mem hr
  have h2 : errorCells (filterByProcess (generate_cell_data tape) sel) = [] := by
    apply List.filter_eq_nil_iff.mpr
    intro r hr
    have hg : r ∈ generate_cell_data tape := (List.mem_filter.mp hr).1
    simpa using status_ne_error_of_mem hg
  refine ⟨h1, h2, ?_⟩
  unfold systemAlerts
  rw [h2]
  simp only [List.length_nil, lt_irrefl, if_false, List.append_nil,
    List.filter_append]
  split_ifs <;> simp [isErrorAlert]

/-- Claim C10: a generated reading with temperature exactly 40 has health
forced to Warning (threshold `>= 40`) yet is not in the over-temperature
alert subset (threshold strictly `> 40`). -/
theorem C10_boundary_forty (tape : ℕ → CellDraws) (r : CellReading)
    (h : r ∈ generate_cell_data tape) (ht : r.temperatureC = 40) :
    r.health = Health.Warning ∧ r ∉ highTempCells (generate_cell_data tape) := by
  obtain ⟨i, _, _, rfl⟩ := mem_generate h
  constructor
  · rw [makeCell_health]
    rw [makeCell_temperatureC] at ht
    rw [if_neg (by omega)]
  · intro hmem
    have h40 := (List.mem_filter.mp hmem).2
    simp only [decide_eq_true_eq] at h40
    omega

theorem C10_boundary_forty_witness :
    makeCell 1 (tapeHot 1) ∈ generate_cell_data tapeHot ∧
    (makeCell 1 (tapeHot 1)).temperatureC = 40 ∧
    ((makeCell 1 (tapeHot 1)).health = Health.Warning ∧
     makeCell 1 (tapeHot 1) ∉ highTempCells (generate_cell_data tapeHot)) := by
  have hm : makeCell 1 (tapeHot 1) ∈ generate_cell_data tapeHot := List.Mem.head _
  have ht : (makeCell 1 (tapeHot 1)).temperatureC = 40 := by decide
  exact ⟨hm, ht, C10_boundary_forty tapeHot _ hm ht⟩

/-- A fixture reading with every field fixed and a chosen process, used to
exercise the evaluator on known data. -/
def fixReading (p : Process) : CellReading :=
  { cellId := "Cell_00", voltageV := 4, currentA := 1, temperatureC := 30,
    capacityPercent := 80, status := .Charging, process := p,
    health := .Good, powerW := 4, lastUpdate := 0 }

/-- Fixture frame with 3 CC readings and 5 non-CC readings, all of them in
status Charging with powerW 4. -/
def fixC6 : List CellReading :=
  [fixReading .CC, fixReading .CC, fixReading .CC, fixReading .CV,
   fixReading .CV, fixReading .Trickle, fixReading .Fast, fixReading .None]

/-- Counterexample to claim C6: on a frame with 3 CC readings among 8 (all
Charging) and filter {CC}, the filtered set has exactly 3 readings, but the
dashboard's derived metrics are computed over the full frame — the active
count is 8 and the total power 32, not the values 3 and 12 that the
filtered readings would give. -/
theorem C6_counterexample :
    (runDashboard fixC6 [Process.CC]).filtered.length = 3 ∧
    (runDashboard fixC6 [Process.CC]).activeCount = 8 ∧
    activeCells ((runDashboard fixC6 [Process.CC]).filtered) = 3 ∧
    (runDashboard fixC6 [Process.CC]).activeCount ≠
      activeCells ((runDashboard fixC6 [Process.CC]).filtered) ∧
    (runDashboard fixC6 [Process.CC]).totalPowerW = 32 ∧
    totalPower ((runDashboard fixC6 [Process.CC]).filtered) = 12 ∧
    (runDashboard fixC6 [Process.CC]).totalPowerW ≠
      totalPower ((runDashboard fixC6 [Process.CC]).filtered) := by
  have hfull : (runDashboard fixC6 [Process.CC]).totalPowerW = 32 := by
    show totalPower fixC6 = 32
    norm_num [totalPower, fixC6, fixReading]
  have hfil : totalPower ((runDashboard fixC6 [Process.CC]).filtered) = 12 := by
    have hlist : (runDashboard fixC6 [Process.CC]).filtered =
        [fixReading .CC, fixReading .CC, fixReading .CC] := rfl
    rw [hlist]
    norm_num [totalPower, fixReading]
  refine ⟨rfl, rfl, rfl, by decide, hfull, hfil, ?_⟩
  rw [hfull, hfil]
  norm_num

/-- Claim C6 amended: filtering by process {CC} on a snapshot with 3 CC
readings yields a filtered set of exactly 3, and the filtered views (cards,
charts, table, alerts) are restricted to those readings; the four derived
metrics, however, are computed over the full unfiltered snapshot, not
recomputed over the filtered readings. -/
theorem C6_amended_metrics_unfiltered (df : List CellReading)
    (h : (df.filter fun r => decide (r.process = Process.CC)).length = 3) :
    (runDashboard df [Process.CC]).filtered.length = 3 ∧
    (runDashboard df [Process.CC]).activeCount = activeCells df ∧
    (runDashboard df [Process.CC]).totalPowerW = totalPower df ∧
    (runDashboard df [Process.CC]).avgTemperatureC = avgTemp df ∧
    (runDashboard df [Process.CC]).avgCapacityPercent = avgCapacity df ∧
    (runDashboard df [Process.CC]).alerts =
      systemAlerts (filterByProcess df [Process.CC]) := by
  refine ⟨?_, rfl, rfl, rfl, rfl, rfl⟩
  show (filterByProcess df [Process.CC]).length = 3
  have heq : filterByProcess df [Process.CC] =
      df.filter fun r => decide (r.process = Process.CC) := by
    unfold filterByProcess
    apply List.filter_congr
    intro r _
    simp
  rw [heq, h]

theorem C6_amended_metrics_unfiltered_witness :
    (fixC6.filter fun r => decide (r.process = Process.CC)).length = 3 ∧
    ((runDashboard fixC6 [Process.CC]).filtered.length = 3 ∧
     (runDashboard fixC6 [Process.CC]).activeCount = activeCells fixC6 ∧
     (runDashboard fixC6 [Process.CC]).totalPowerW = totalPower fixC6 ∧
     (runDashboard fixC6 [Process.CC]).avgTemperatureC = avgTemp fixC6 ∧
     (runDashboard fixC6 [Process.CC]).avgCapacityPercent = avgCapacity fixC6 ∧
     (runDashboard fixC6 [Process.CC]).alerts =
       systemAlerts (filterByProcess fixC6 [Process.CC])) :=
  ⟨by decide, C6_amended_metrics_unfiltered fixC6 (by decide)⟩

/-- Tape whose cell-`i` `datetime.now()` call returns `i`: a clock that
advances between the 8 calls of one generation pass. -/
def tapeClock : ℕ → CellDraws := fun i =>
  { uVolt := 0, uCurr := 0, capRnd := 0, statusRnd := 0, processRnd := 0,
    tempRnd := 0, healthRnd := 0, now := i }

/-- Counterexample to claim C7: `datetime.now()` is called once per cell
inside the generation loop, so when the clock advances during one pass the
8 readings carry pairwise different lastUpdate values instead of one shared
capture time. -/
theorem C7_counterexample :
    ((generate_cell_data tapeClock).map (·.lastUpdate)) =
      [1, 2, 3, 4, 5, 6, 7, 8] ∧
    ¬ (∀ r ∈ generate_cell_data tapeClock, ∀ s ∈ generate_cell_data tapeClock,
        r.lastUpdate = s.lastUpdate) := by
  refine ⟨rfl, ?_⟩
  intro hall
  have h1 : makeCell 1 (tapeClock 1) ∈ generate_cell_data tapeClock :=
    List.Mem.head _
  have h2 : makeCell 2 (tapeClock 2) ∈ generate_cell_data tapeClock :=
    List.Mem.tail _ (List.Mem.head _)
  have h12 := hall _ h1 _ h2
  rw [makeCell_lastUpdate, makeCell_lastUpdate] at h12
  exact absurd h12 (by decide)

/-- Claim C7 amended: each reading's lastUpdate is the timestamp returned
by its own `datetime.now()` call inside the generation loop; all 8 readings
share one lastUpdate value when the clock returns the same time for every
call of the pass (the code itself does not guarantee that sharing). -/
theorem C7_amended_lastUpdate (tape : ℕ → CellDraws)
    (h : ∀ i j, (tape i).now = (tape j).now) :
    ((generate_cell_data tape).map (·.lastUpdate) =
      [(tape 1).now, (tape 2).now, (tape 3).now, (tape 4).now,
       (tape 5).now, (tape 6).now, (tape 7).now, (tape 8).now]) ∧
    ∀ r ∈ generate_cell_data tape, ∀ s ∈ generate_cell_data tape,
      r.lastUpdate = s.lastUpdate := by
  refine ⟨rfl, ?_⟩
  intro r hr s hs
  obtain ⟨i, _, _, rfl⟩ := mem_generate hr
  obtain ⟨j, _, _, rfl⟩ := mem_generate hs
  rw [makeCell_lastUpdate, makeCell_lastUpdate]
  exact h i j

theorem C7_amended_lastUpdate_witness :
    (∀ i j : ℕ, (tape0 i).now = (tape0 j).now) ∧
    (((generate_cell_data tape0).map (·.lastUpdate) =
      [(tape0 1).now, (tape0 2).now, (tape0 3).now, (tape0 4).now,
       (tape0 5).now, (tape0 6).now, (tape0 7).now, (tape0 8).now]) ∧
     ∀ r ∈ generate_cell_data tape0, ∀ s ∈ generate_cell_data tape0,
       r.lastUpdate = s.lastUpdate) :=
  ⟨fun _ _ => rfl, C7_amended_lastUpdate tape0 (fun _ _ => rfl)⟩

/-- Counterexample to claim C8: on the empty snapshot the mean temperature
is NaN (`none` in the model) and the sidebar renders the string "nan°C";
no "no data" report is produced anywhere in the code. -/
theorem C8_counterexample :
    avgTemp ([] : List CellReading) = Option.none ∧
    avgTempDisplay ([] : List CellReading) = "nan°C" ∧
    avgTempDisplay ([] : List CellReading) ≠ "no data" := by
  refine ⟨rfl, rfl, ?_⟩
  decide

/-- Claim C8 amended: the evaluator is total on a snapshot with fewer than
8 readings; on the empty snapshot the counts and sums are zero, the
averages are NaN (`none`), no alerts fire, the banner shows, and the
average temperature is rendered as "nan°C" rather than as a "no data"
report; the averages are NaN exactly on the empty snapshot. -/
theorem C8_amended_neutral_values (df : List CellReading) (sel : List Process)
    (h : df.length < 8) :
    ((runDashboard df sel).avgTemperatureC = Option.none ↔ df = []) ∧
    (df = [] →
      (runDashboard df sel).activeCount = 0 ∧
      (runDashboard df sel).totalPowerW = 0 ∧
      (runDashboard df sel).avgCapacityPercent = Option.none ∧
      (runDashboard df sel).alerts = [] ∧
      (runDashboard df sel).banner = true ∧
      avgTempDisplay df = "nan°C") := by
  constructor
  · show avgTemp df = Option.none ↔ df = []
    unfold avgTemp meanQ
    constructor
    · intro hn
      by_cases hdf : df.map (fun r => (r.temperatureC : ℚ)) = []
      · exact List.map_eq_nil_iff.mp hdf
      · rw [if_neg hdf] at hn
        exact absurd hn (by simp)
    · intro hdf
      subst hdf
      rfl
  · intro hdf
    subst hdf
    exact ⟨rfl, rfl, rfl, rfl, rfl, rfl⟩

theorem C8_amended_neutral_values_witness :
    ([] : List CellReading).length < 8 ∧
    (((runDashboard ([] : List CellReading) []).avgTemperatureC = Option.none ↔
        ([] : List CellReading) = []) ∧
     (([] : List CellReading) = [] →
       (runDashboard ([] : List CellReading) []).activeCount = 0 ∧
       (runDashboard ([] : List CellReading) []).totalPowerW = 0 ∧
       (runDashboard ([] : List CellReading) []).avgCapacityPercent = Option.none ∧
       (runDashboard ([] : List CellReading) []).alerts = [] ∧
       (runDashboard ([] : List CellReading) []).banner = true ∧
       avgTempDisplay ([] : List CellReading) = "nan°C")) :=
  ⟨by decide, C8_amended_neutral_values [] [] (by decide)⟩

end CellCharging
